import Mathlib

/-!
Verification of the black-hole simulation engine (`src/main.js`, final
evolution of the file).  Machine numbers are idealised as exact rationals
(`ℚ`); pointer geometry, which uses `Math.sqrt`, is modelled over `ℝ`.
`Math.PI` is taken at its exact IEEE-754 double value, a rational.
-/

namespace BlackHoleSim

/-- Exact rational value of the IEEE-754 double `Math.PI`
(= 7074237752028440 / 2^51). -/
def mathPI : ℚ := 884279719003555 / 281474976710656

/-- `G: 6.67430e-11` — gravitational constant from the `params` literal. -/
def Gconst : ℚ := 66743 / 10 ^ 15

/-- `c: 299792458` — speed of light. -/
def cLight : ℚ := 299792458

/-- `solarMass: 1.989e30` — mass of the Sun in kilograms. -/
def solarMass : ℚ := 1989 * 10 ^ 27

/-- The mutable `params` object of the final version of `main.js`
(physics constants are the global `Gconst`, `cLight`, `solarMass` above;
the remaining data fields are carried here). -/
structure Params where
  mass : ℚ
  rotation : ℚ
  zoom : ℚ
  rotationSpeed : ℚ
  diskAngle : ℚ
  M : ℚ
  timeScale : ℚ
  drag : ℚ
  trails : Bool
  trailLength : ℚ
  seed : ℚ
  particles : ℚ
deriving DecidableEq

/-- The literal default `params` object (lines 517–543 and the identical
re-creation inside `resetSimulation`, lines 794–819). -/
def resetSimulation : Params :=
  { mass := 50
    rotation := 0
    zoom := 100
    rotationSpeed := 0
    diskAngle := 0
    M := 1000000
    timeScale := 1
    drag := 2 / 100
    trails := true
    trailLength := 50
    seed := 12345
    particles := 500 }

/-- `get schwarzschildRadius()`: `rs = 2·G·(M·Msun)/c²` metres, divided by
1000 for kilometres; recomputed from `M` on every read. -/
def schwarzschildRadius (p : Params) : ℚ :=
  2 * Gconst * (p.M * solarMass) / (cLight * cLight) / 1000

/-- `get blackHoleMass()`: `this.M * (this.mass / 50)`. -/
def blackHoleMass (p : Params) : ℚ :=
  p.M * (p.mass / 50)

/-- `updateDerivedParams()`: `this.rotationSpeed = this.rotation * 0.05`. -/
def updateDerivedParams (p : Params) : Params :=
  { p with rotationSpeed := p.rotation * (5 / 100) }

/-- JavaScript number-to-integer truncation (toward zero), as in the
semantics of the `%` operator. -/
def jsTrunc (q : ℚ) : ℤ :=
  if 0 ≤ q then ⌊q⌋ else ⌈q⌉

/-- JavaScript remainder operator `a % b`: `a - b * trunc(a / b)`
(result carries the sign of the dividend). -/
def jsRem (a b : ℚ) : ℚ :=
  a - b * jsTrunc (a / b)

/-- `updateSimulation(dt)` (lines 969–982): scale `dt` by `timeScale`,
refresh `rotationSpeed` via `updateDerivedParams`, accumulate the disk
angle, then wrap it with `% (Math.PI * 2)`. -/
def updateSimulation (dt : ℚ) (p : Params) : Params :=
  let scaledDt := dt * p.timeScale
  let q := updateDerivedParams p
  let angle := q.diskAngle + q.rotationSpeed * scaledDt
  { q with diskAngle := jsRem angle (mathPI * 2) }

/-- Repeated integration steps: fold `updateSimulation` over a list of
frame deltas. -/
def runSteps (dts : List ℚ) (p : Params) : Params :=
  dts.foldl (fun q dt => updateSimulation dt q) p

/-- For a non-negative dividend and positive divisor the JavaScript
remainder lands in `[0, b)`. -/
theorem jsRem_mem (a b : ℚ) (ha : 0 ≤ a) (hb : 0 < b) :
    0 ≤ jsRem a b ∧ jsRem a b < b := by
  have hq : 0 ≤ a / b := div_nonneg ha hb.le
  have htr : jsTrunc (a / b) = ⌊a / b⌋ := if_pos hq
  constructor
  · have h1 : (⌊a / b⌋ : ℚ) ≤ a / b := Int.floor_le _
    have h2 : b * (⌊a / b⌋ : ℚ) ≤ a := by
      calc b * (⌊a / b⌋ : ℚ) ≤ b * (a / b) := by
            exact mul_le_mul_of_nonneg_left h1 hb.le
        _ = a := by field_simp
    simp only [jsRem, htr]
    linarith
  · have h1 : a / b < (⌊a / b⌋ : ℚ) + 1 := Int.lt_floor_add_one _
    have h2 : a < b * ((⌊a / b⌋ : ℚ) + 1) := by
      have := (div_lt_iff₀ hb).mp h1
      linarith [this]
    simp only [jsRem, htr]
    have : b * ((⌊a / b⌋ : ℚ) + 1) = b * (⌊a / b⌋ : ℚ) + b := by ring
    linarith

theorem two_mathPI_pos : 0 < mathPI * 2 := by
  unfold mathPI; norm_num

/-- One `updateSimulation` step keeps the disk angle in `[0, 2π)` and
leaves `rotation` and `timeScale` untouched. -/
theorem updateSimulation_step (dt : ℚ) (p : Params)
    (hrot : 0 ≤ p.rotation) (hts : 0 < p.timeScale) (hdt : 0 ≤ dt)
    (hang : 0 ≤ p.diskAngle) :
    0 ≤ (updateSimulation dt p).diskAngle ∧
    (updateSimulation dt p).diskAngle < mathPI * 2 ∧
    (updateSimulation dt p).rotation = p.rotation ∧
    (updateSimulation dt p).timeScale = p.timeScale := by
  have hspeed : 0 ≤ p.rotation * (5 / 100) := by positivity
  have hacc : 0 ≤ p.diskAngle + p.rotation * (5 / 100) * (dt * p.timeScale) := by
    have : 0 ≤ p.rotation * (5 / 100) * (dt * p.timeScale) := by positivity
    linarith
  have hmem := jsRem_mem (p.diskAngle + p.rotation * (5 / 100) * (dt * p.timeScale))
    (mathPI * 2) hacc two_mathPI_pos
  simp only [updateSimulation, updateDerivedParams]
  exact ⟨hmem.1, hmem.2, trivial, trivial⟩

/-- Folding `updateSimulation` over non-negative deltas preserves the
disk-angle invariant. -/
theorem runSteps_diskAngle_mem (dts : List ℚ) : ∀ (p : Params),
    (∀ dt ∈ dts, 0 ≤ dt) → 0 ≤ p.rotation → 0 < p.timeScale →
    0 ≤ p.diskAngle → p.diskAngle < mathPI * 2 →
    0 ≤ (runSteps dts p).diskAngle ∧ (runSteps dts p).diskAngle < mathPI * 2 := by
  induction dts with
  | nil => exact fun p _ _ _ h1 h2 => ⟨h1, h2⟩
  | cons d ds ih =>
    intro p hdts hrot hts hang _
    have hd : 0 ≤ d := hdts d (List.mem_cons_self _ _)
    have hstep := updateSimulation_step d p hrot hts hd hang
    have hfold : runSteps (d :: ds) p = runSteps ds (updateSimulation d p) := rfl
    rw [hfold]
    exact ih (updateSimulation d p)
      (fun dt h => hdts dt (List.mem_cons_of_mem _ h))
      (hstep.2.2.1 ▸ hrot) (hstep.2.2.2 ▸ hts) hstep.1 hstep.2.1

/-- Claim C1: for every finite sequence of integration steps with
`dt_i ≥ 0` applied via `updateSimulation` to a model whose rotation
slider value is in `[0,100]` and whose `timeScale` is positive, the
accumulated `diskAngle` stays within `[0, 2π)` after every step (every
initial segment of the sequence is itself such a sequence). -/
theorem diskAngle_invariant (dts : List ℚ) (p : Params)
    (hdts : ∀ dt ∈ dts, 0 ≤ dt)
    (hrot0 : 0 ≤ p.rotation) (_hrot100 : p.rotation ≤ 100)
    (hts : 0 < p.timeScale)
    (hang0 : 0 ≤ p.diskAngle) (hang : p.diskAngle < mathPI * 2) :
    0 ≤ (runSteps dts p).diskAngle ∧
    (runSteps dts p).diskAngle < mathPI * 2 :=
  runSteps_diskAngle_mem dts p hdts hrot0 hts hang0 hang

/-- Concrete instance of `diskAngle_invariant`: two steps of 0.1 s and
5 s at rotation 50, timeScale 1. -/
theorem diskAngle_invariant_witness :
    0 ≤ (runSteps [1/10, 5] { resetSimulation with rotation := 50 }).diskAngle ∧
    (runSteps [1/10, 5] { resetSimulation with rotation := 50 }).diskAngle < mathPI * 2 :=
  diskAngle_invariant [1/10, 5] { resetSimulation with rotation := 50 }
    (by intro dt hdt; fin_cases hdt <;> norm_num)
    (by norm_num [resetSimulation]) (by norm_num [resetSimulation])
    (by norm_num [resetSimulation]) (by norm_num [resetSimulation])
    (by norm_num [resetSimulation, mathPI])

/-- The delta-time computation at the top of `animate` (lines 938–941):
`if (!lastFrameTime) lastFrameTime = currentTime;` then
`dt = Math.min((currentTime - lastFrameTime) / 1000, 0.1)`.
A `lastFrameTime` of `0` is falsy in JavaScript, so it is replaced by
`currentTime` before the subtraction. -/
def animateDt (lastFrameTime currentTime : ℚ) : ℚ :=
  let last := if lastFrameTime = 0 then currentTime else lastFrameTime
  min ((currentTime - last) / 1000) (1 / 10)

/-- Claim C2 does not hold at `lastFrameTime = 0`: the falsy guard
re-seeds `lastFrameTime` to `currentTime`, so a tick at `nowMs = 5000`
with stored `lastFrameTime = 0` yields `dt = 0`, not
`min((5000 - 0)/1000, 0.1) = 0.1`. -/
theorem animateDt_zero_counterexample :
    animateDt 0 5000 = 0 ∧
    ¬ animateDt 0 5000 = min ((5000 - 0 : ℚ) / 1000) (1 / 10) := by
  constructor
  · simp [animateDt]
  · simp [animateDt]
    norm_num

/-- Claim C2 (amended): for every pair of timestamps with
`lastFrameTime ≠ 0` (i.e. a seeded clock), the tick computes
`dt = min((nowMs - lastFrameTime)/1000, 0.1)`; when `lastFrameTime = 0`
the falsy guard yields `dt = 0`.  In particular a 5000 ms gap from a
seeded clock is capped at `0.1`. -/
theorem animateDt_spec (lastFrameTime currentTime : ℚ)
    (h : lastFrameTime ≠ 0) :
    animateDt lastFrameTime currentTime =
      min ((currentTime - lastFrameTime) / 1000) (1 / 10) ∧
    animateDt 0 currentTime = 0 ∧
    (currentTime - lastFrameTime = 5000 →
      animateDt lastFrameTime currentTime = 1 / 10) := by
  refine ⟨by simp [animateDt, h], by simp [animateDt], ?_⟩
  intro hgap
  simp only [animateDt, if_neg h]
  rw [hgap]
  norm_num

/-- Concrete instance of `animateDt_spec`: `lastFrameTime = 1000`,
`currentTime = 6000`. -/
theorem animateDt_spec_witness :
    animateDt 1000 6000 = min ((6000 - 1000 : ℚ) / 1000) (1 / 10) ∧
    animateDt 1000 6000 = 1 / 10 :=
  ⟨(animateDt_spec 1000 6000 (by norm_num)).1,
   (animateDt_spec 1000 6000 (by norm_num)).2.2 (by norm_num)⟩

/-- The `timeScale` slider listener (lines 737–740):
`params.timeScale = parseFloat(timeScaleSlider.value)` — the parsed value
is stored with no validation or clamping. -/
def setTimeScale (v : ℚ) (p : Params) : Params :=
  { p with timeScale := v }

/-- A parsed `blackHoleParams` record from `localStorage`.  `none` models
a key that is absent (or `null`): the `??` operator in `loadFromStorage`
falls back to the prior value exactly in those cases.  The `rs` key only
ever appears in the post-reset `saveToStorage`, where `this.rs` is
`undefined` and is therefore omitted by `JSON.stringify`. -/
structure StoredRecord where
  mass : Option ℚ
  rotation : Option ℚ
  zoom : Option ℚ
  M : Option ℚ
  rs : Option ℚ
  timeScale : Option ℚ
  drag : Option ℚ
  trails : Option Bool
  trailLength : Option ℚ
  seed : Option ℚ
  particles : Option ℚ
deriving DecidableEq

/-- A record with every key absent. -/
def emptyRecord : StoredRecord :=
  { mass := none, rotation := none, zoom := none, M := none, rs := none,
    timeScale := none, drag := none, trails := none, trailLength := none,
    seed := none, particles := none }

/-- `loadFromStorage()` (lines 593–619): each serialisable field is
overwritten with `parsedParams.field ?? this.field`, then
`updateDerivedParams()` refreshes `rotationSpeed`. -/
def loadFromStorage (r : StoredRecord) (p : Params) : Params :=
  updateDerivedParams
    { p with
      mass := r.mass.getD p.mass
      rotation := r.rotation.getD p.rotation
      zoom := r.zoom.getD p.zoom
      M := r.M.getD p.M
      timeScale := r.timeScale.getD p.timeScale
      drag := r.drag.getD p.drag
      trails := r.trails.getD p.trails
      trailLength := r.trailLength.getD p.trailLength
      seed := r.seed.getD p.seed
      particles := r.particles.getD p.particles }

/-- `saveToStorage()` of the post-reset `params` object (lines 881–902):
stores the ten data fields; `rs: this.rs` reads an `undefined` property,
which `JSON.stringify` drops, so the stored record has no `rs` key. -/
def saveToStorage (p : Params) : StoredRecord :=
  { mass := some p.mass
    rotation := some p.rotation
    zoom := some p.zoom
    M := some p.M
    rs := none
    timeScale := some p.timeScale
    drag := some p.drag
    trails := some p.trails
    trailLength := some p.trailLength
    seed := some p.seed
    particles := some p.particles }

/-- Claim C3 fails on the code: the `timeScale` slider listener and
`loadFromStorage` store the incoming value with no clamping, so a value
of `-1` leaves the model with a non-positive `timeScale`. -/
theorem timeScale_not_clamped :
    (setTimeScale (-1) resetSimulation).timeScale = -1 ∧
    (loadFromStorage { emptyRecord with timeScale := some (-1) }
      resetSimulation).timeScale = -1 ∧
    ¬ 0 < (setTimeScale (-1) resetSimulation).timeScale := by
  refine ⟨rfl, rfl, ?_⟩
  norm_num [setTimeScale]

/-- The `actual-mass` input listener (lines 716–735): the parsed value
(`none` models a `NaN` parse) is replaced by the default `1.0e6` when it
is `NaN` or `≤ 0`, and the result is assigned to `params.M`. -/
def setBlackHoleMassSolar (v : Option ℚ) (p : Params) : Params :=
  match v with
  | none => { p with M := 1000000 }
  | some x => if x ≤ 0 then { p with M := 1000000 } else { p with M := x }

/-- Claim C4 fails on the code: an invalid actual-mass input does not
leave `M` at its prior value — it resets `M` to the default `1.0e6`.
With prior `M = 2.0e6` and input `-1`, the result is `1.0e6 ≠ 2.0e6`. -/
theorem setBlackHoleMassSolar_counterexample :
    (setBlackHoleMassSolar (some (-1))
        { resetSimulation with M := 2000000 }).M = 1000000 ∧
    ({ resetSimulation with M := 2000000 } : Params).M = 2000000 ∧
    (1000000 : ℚ) ≠ 2000000 := by
  refine ⟨?_, rfl, by norm_num⟩
  simp [setBlackHoleMassSolar]

/-- Claim C4 (amended): an input that is `NaN` or `≤ 0` resets `M` to the
default `1.0e6` (not the prior value); a positive input sets `M` to it,
independent of the mass slider (which is left untouched and does not
enter the computation). -/
theorem setBlackHoleMassSolar_spec (v : ℚ) (p : Params) :
    (v ≤ 0 → (setBlackHoleMassSolar (some v) p).M = 1000000) ∧
    (0 < v → (setBlackHoleMassSolar (some v) p).M = v) ∧
    (setBlackHoleMassSolar none p).M = 1000000 ∧
    (setBlackHoleMassSolar (some v) p).mass = p.mass := by
  refine ⟨fun h => ?_, fun h => ?_, rfl, ?_⟩
  · simp [setBlackHoleMassSolar, if_pos h]
  · simp [setBlackHoleMassSolar, if_neg (not_le.mpr h)]
  · by_cases h : v ≤ 0 <;> simp [setBlackHoleMassSolar, h]

/-- Concrete instance of `setBlackHoleMassSolar_spec` at `v = 5` on the
default model. -/
theorem setBlackHoleMassSolar_spec_witness :
    (setBlackHoleMassSolar (some 5) resetSimulation).M = 5 ∧
    (setBlackHoleMassSolar none resetSimulation).M = 1000000 :=
  ⟨(setBlackHoleMassSolar_spec 5 resetSimulation).2.1 (by norm_num),
   (setBlackHoleMassSolar_spec 5 resetSimulation).2.2.1⟩

/-- The mass slider listener (lines 690–700): stores the slider value in
`params.mass`, then `params.M = params.blackHoleMass`, i.e.
`M := M * (mass / 50)` with the freshly stored slider value. -/
def setMassSlider (v : ℚ) (p : Params) : Params :=
  let p1 := { p with mass := v }
  { p1 with M := blackHoleMass p1 }

/-- Claim C5: for a slider value `v ∈ [0,100]`, the mass-slider mutation
multiplies the current physical mass by `v/50`; applying the same `v`
twice compounds to `(v/50)²` times the original mass. -/
theorem setMassSlider_spec (v : ℚ) (p : Params)
    (_h0 : 0 ≤ v) (_h100 : v ≤ 100) :
    (setMassSlider v p).M = p.M * (v / 50) ∧
    (setMassSlider v (setMassSlider v p)).M = p.M * (v / 50) * (v / 50) := by
  constructor
  · simp [setMassSlider, blackHoleMass]
  · simp [setMassSlider, blackHoleMass]

/-- Concrete instance of `setMassSlider_spec` at `v = 70` on the default
model: one application gives `1.4e6`, a second gives `1.96e6`. -/
theorem setMassSlider_spec_witness :
    (setMassSlider 70 resetSimulation).M = 1000000 * (70 / 50) ∧
    (setMassSlider 70 (setMassSlider 70 resetSimulation)).M =
      1000000 * (70 / 50) * (70 / 50) := by
  have h := setMassSlider_spec 70 resetSimulation (by norm_num) (by norm_num)
  exact ⟨h.1, h.2⟩

/-- Claim C6 (amended): `schwarzschildRadius` is a pure function of `M`
(recomputed from `M` alone on every read), and at `M = 1.0e6` solar
masses it is approximately `2.954e6` km, within `±0.1%`. -/
theorem schwarzschildRadius_spec (p q : Params) (hM : p.M = q.M) :
    schwarzschildRadius p = schwarzschildRadius q ∧
    (p.M = 1000000 →
      |schwarzschildRadius p - 2954000| ≤ 1 / 1000 * 2954000) := by
  constructor
  · simp [schwarzschildRadius, hM]
  · intro h
    rw [abs_le]
    constructor <;>
      norm_num [schwarzschildRadius, Gconst, cLight, solarMass, h]

/-- Concrete instance of `schwarzschildRadius_spec` on the default model
(whose `M` is `1.0e6`). -/
theorem schwarzschildRadius_spec_witness :
    |schwarzschildRadius resetSimulation - 2954000| ≤ 1 / 1000 * 2954000 :=
  (schwarzschildRadius_spec resetSimulation resetSimulation rfl).2 rfl

/-- Claim C6 as stated fails: the exact radius at `M = 1.0e6` is about
`2954126` km, which misses `2.95e6 ± 0.1%` (the gap to `2.95e6` is about
`4126` km while `0.1%` allows only `2950`). -/
theorem schwarzschildRadius_counterexample :
    resetSimulation.M = 1000000 ∧
    ¬ |schwarzschildRadius resetSimulation - 2950000| ≤
        1 / 1000 * 2950000 := by
  refine ⟨rfl, ?_⟩
  rw [not_le]
  have h1 : (1 / 1000 : ℚ) * 2950000 <
      schwarzschildRadius resetSimulation - 2950000 := by
    norm_num [schwarzschildRadius, resetSimulation, Gconst, cLight, solarMass]
  exact lt_of_lt_of_le h1 (le_abs_self _)

/-- Claim C7: `loadFromStorage` has merge semantics — every persisted
field absent from the record keeps its prior value, and only the fields
present are overwritten; a record holding only `mass = 70` leaves
`rotation` unchanged. -/
theorem loadFromStorage_merge (r : StoredRecord) (p : Params) :
    (r.mass = none → (loadFromStorage r p).mass = p.mass) ∧
    (r.rotation = none → (loadFromStorage r p).rotation = p.rotation) ∧
    (r.zoom = none → (loadFromStorage r p).zoom = p.zoom) ∧
    (r.M = none → (loadFromStorage r p).M = p.M) ∧
    (r.timeScale = none → (loadFromStorage r p).timeScale = p.timeScale) ∧
    (r.drag = none → (loadFromStorage r p).drag = p.drag) ∧
    (r.trails = none → (loadFromStorage r p).trails = p.trails) ∧
    (r.trailLength = none →
      (loadFromStorage r p).trailLength = p.trailLength) ∧
    (r.seed = none → (loadFromStorage r p).seed = p.seed) ∧
    (r.particles = none → (loadFromStorage r p).particles = p.particles) ∧
    (loadFromStorage { emptyRecord with mass := some 70 } p).rotation =
      p.rotation ∧
    (loadFromStorage { emptyRecord with mass := some 70 } p).mass = 70 := by
  refine ⟨fun h => ?_, fun h => ?_, fun h => ?_, fun h => ?_, fun h => ?_,
    fun h => ?_, fun h => ?_, fun h => ?_, fun h => ?_, fun h => ?_, ?_, ?_⟩ <;>
    simp_all [loadFromStorage, updateDerivedParams, emptyRecord]

/-- Concrete instance of `loadFromStorage_merge`: restoring
`{mass: 70}` onto a model with rotation `42` keeps rotation `42` and
sets mass to `70`; an empty record keeps `timeScale`. -/
theorem loadFromStorage_merge_witness :
    (loadFromStorage { emptyRecord with mass := some 70 }
        { resetSimulation with rotation := 42 }).rotation = 42 ∧
    (loadFromStorage { emptyRecord with mass := some 70 }
        { resetSimulation with rotation := 42 }).mass = 70 ∧
    (loadFromStorage emptyRecord resetSimulation).timeScale =
      resetSimulation.timeScale := by
  have h := loadFromStorage_merge { emptyRecord with mass := some 70 }
    { resetSimulation with rotation := 42 }
  have h2 := loadFromStorage_merge emptyRecord resetSimulation
  exact ⟨h.2.2.2.2.2.2.2.2.2.2.1, h.2.2.2.2.2.2.2.2.2.2.2,
    h2.2.2.2.2.1 rfl⟩

/-- The documented default record of spec §8, for comparison with the
snapshot taken after a reset (clearly spec-side: built from the literal
defaults the spec lists). -/
def specDefaultRecord : StoredRecord :=
  { mass := some 50
    rotation := some 0
    zoom := some 100
    M := some 1000000
    rs := none
    timeScale := some 1
    drag := some (2 / 100)
    trails := some true
    trailLength := some 50
    seed := some 12345
    particles := some 500 }

/-- Claim C8: after `resetSimulation()`, the persisted snapshot equals
the documented default record, and `diskAngle` is cleared to `0`. -/
theorem resetSimulation_snapshot :
    saveToStorage resetSimulation = specDefaultRecord ∧
    resetSimulation.diskAngle = 0 :=
  ⟨rfl, rfl⟩

/-- Pointer/touch interaction state: the `isDragging` flag, the last
pointer position (`lastTouchX`/`lastTouchY`, canvas-relative CSS
coordinates), and the rotation value shared by the slider and
`params.rotation` (the listener writes the same number to both). -/
structure InteractionState where
  isDragging : Bool
  lastTouchX : ℝ
  lastTouchY : ℝ
  rotation : ℝ
  rotationSpeed : ℝ

/-- `parseInt` applied to the decimal rendering of a number: truncation
toward zero (for magnitudes below `1e21`, where `String()` does not use
exponent form). -/
noncomputable def jsParseInt (x : ℝ) : ℝ :=
  if 0 ≤ x then (⌊x⌋ : ℤ) else (⌈x⌉ : ℤ)

/-- `handleInteractionStart(clientX, clientY)` (lines 1072–1076). -/
def handleInteractionStart (x y : ℝ) (s : InteractionState) :
    InteractionState :=
  { s with isDragging := true, lastTouchX := x, lastTouchY := y }

/-- `handleInteractionEnd()` (lines 1116–1118). -/
def handleInteractionEnd (s : InteractionState) : InteractionState :=
  { s with isDragging := false }

/-- `handleInteractionMove(clientX, clientY)` (lines 1078–1114), with
`x`/`y` the canvas-relative CSS coordinates (`currentX`/`currentY`; the
`getBoundingClientRect` subtraction is the host-boundary conversion).
The computed-but-unused `distFromCenter` is omitted.  The clamped
`newRotation` is written to the slider and to `params.rotation`, and
`rotationSpeed` is refreshed as `rotation * 0.05`. -/
noncomputable def handleInteractionMove (x y : ℝ) (s : InteractionState) :
    InteractionState :=
  if s.isDragging then
    let dx := x - s.lastTouchX
    let dy := y - s.lastTouchY
    let moveAmount := Real.sqrt (dx * dx + dy * dy)
    let rotationChange := moveAmount * (1 / 2)
    let newRotation :=
      min 100 (max 0 (jsParseInt s.rotation +
        (if 0 < dx then rotationChange else -rotationChange)))
    { s with
      rotation := newRotation
      rotationSpeed := newRotation * (5 / 100)
      lastTouchX := x
      lastTouchY := y }
  else s

/-- Claim C9: while dragging, a pointer move to `(x, y)` sets the
rotation to `clamp(prev + (dx > 0 ? +m·0.5 : −m·0.5), 0, 100)` with
`dx = x − lastPointer.x` and `m` the Euclidean distance moved (stated
for an integer prior rotation, the slider's domain), updates the stored
pointer, and is a no-op when not dragging; dragging from `(100,100)` to
`(110,100)` at rotation `0` yields rotation `5`. -/
theorem handleInteractionMove_spec (s : InteractionState) (x y : ℝ) :
    (s.isDragging = false → handleInteractionMove x y s = s) ∧
    (s.isDragging = true → ∀ n : ℤ, s.rotation = (n : ℝ) → 0 ≤ n →
      (handleInteractionMove x y s).rotation =
        min 100 (max 0 (s.rotation +
          (if 0 < x - s.lastTouchX
           then Real.sqrt ((x - s.lastTouchX) * (x - s.lastTouchX) +
                  (y - s.lastTouchY) * (y - s.lastTouchY)) * (1 / 2)
           else -(Real.sqrt ((x - s.lastTouchX) * (x - s.lastTouchX) +
                  (y - s.lastTouchY) * (y - s.lastTouchY)) * (1 / 2))))) ∧
      (handleInteractionMove x y s).lastTouchX = x ∧
      (handleInteractionMove x y s).lastTouchY = y) ∧
    (handleInteractionMove 110 100
        (⟨true, 100, 100, 0, 0⟩ : InteractionState)).rotation = 5 := by
  refine ⟨fun h => ?_, fun h n hn hn0 => ?_, ?_⟩
  · simp [handleInteractionMove, h]
  · have hji : jsParseInt s.rotation = s.rotation := by
      rw [hn]
      unfold jsParseInt
      rw [if_pos (by exact_mod_cast hn0 : (0 : ℝ) ≤ (n : ℝ))]
      simp
    refine ⟨?_, ?_, ?_⟩ <;> simp [handleInteractionMove, h, hji]
  · have hsq : Real.sqrt (100 : ℝ) = 10 := by
      rw [show (100 : ℝ) = 10 ^ 2 by norm_num]
      exact Real.sqrt_sq (by norm_num)
    have hji : jsParseInt (0 : ℝ) = 0 := by
      unfold jsParseInt
      norm_num
    simp only [handleInteractionMove]
    norm_num [hsq, hji]

/-- Concrete instances of `handleInteractionMove_spec`: a move while not
dragging changes nothing; the documented drag from `(100,100)` to
`(110,100)` moves the stored pointer and sets rotation `5`. -/
theorem handleInteractionMove_spec_witness :
    handleInteractionMove 110 100
        (⟨false, 100, 100, 0, 0⟩ : InteractionState) =
      (⟨false, 100, 100, 0, 0⟩ : InteractionState) ∧
    (handleInteractionMove 110 100
        (⟨true, 100, 100, 0, 0⟩ : InteractionState)).lastTouchX = 110 ∧
    (handleInteractionMove 110 100
        (⟨true, 100, 100, 0, 0⟩ : InteractionState)).rotation = 5 :=
  ⟨(handleInteractionMove_spec ⟨false, 100, 100, 0, 0⟩ 110 100).1 rfl,
   ((handleInteractionMove_spec ⟨true, 100, 100, 0, 0⟩ 110 100).2.1
      rfl 0 (by norm_num) (by norm_num)).2.1,
   (handleInteractionMove_spec ⟨true, 100, 100, 0, 0⟩ 110 100).2.2⟩

/-- The canvas-side state touched by `resizeCanvas`: the pixel buffer
(`width`/`height`, set via `Math.floor`), the CSS size, the context
transform scale, and the expando properties `canvas.displayWidth` /
`canvas.displayHeight` (`none` before the first resize, when the
comparison against `undefined` always reports a change). -/
structure CanvasState where
  width : ℤ
  height : ℤ
  styleWidth : ℚ
  styleHeight : ℚ
  transformScale : ℚ
  displayWidth : Option ℚ
  displayHeight : Option ℚ
deriving DecidableEq

/-- `resizeCanvas()` (lines 429–469): `sizeChanged` compares only the
stored `displayWidth`/`displayHeight` against the measured CSS size; on
a change the buffer is set to `floor(logical · dpr)`, the CSS size and
the stored logical size are updated, and the transform is reset to a
`dpr` scale; otherwise nothing is touched. -/
def resizeCanvas (displayWidth displayHeight dpr : ℚ)
    (c : CanvasState) : CanvasState :=
  if c.displayWidth ≠ some displayWidth ∨
      c.displayHeight ≠ some displayHeight then
    { width := ⌊displayWidth * dpr⌋
      height := ⌊displayHeight * dpr⌋
      styleWidth := displayWidth
      styleHeight := displayHeight
      transformScale := dpr
      displayWidth := some displayWidth
      displayHeight := some displayHeight }
  else c

/-- Claim C10: when the measured logical size equals the stored one,
`resizeCanvas` leaves the whole canvas state untouched — pixel buffer,
CSS size and transform included — for every device pixel ratio, even
one differing from the ratio in effect at the last resize. -/
theorem resizeCanvas_noop (w h dpr : ℚ) (c : CanvasState)
    (hw : c.displayWidth = some w) (hh : c.displayHeight = some h) :
    resizeCanvas w h dpr c = c := by
  simp [resizeCanvas, hw, hh]

/-- Concrete instance of `resizeCanvas_noop`: stored logical size
`800×600` re-measured as `800×600` under a dpr of `3` (the last resize
used a transform scale of `2`) changes nothing. -/
theorem resizeCanvas_noop_witness :
    resizeCanvas 800 600 3
        (⟨1600, 1200, 800, 600, 2, some 800, some 600⟩ : CanvasState) =
      (⟨1600, 1200, 800, 600, 2, some 800, some 600⟩ : CanvasState) :=
  resizeCanvas_noop 800 600 3 _ rfl rfl
